import Mathlib

/-!
Verification development for the Wi-Fi scanner (`src/wifi_scanner.py`).

The Python program is shallowly embedded:
* the CSV snapshot parser `parse_airodump_csv` becomes a pure Lean function
  over an abstract file state (the rows the `csv.reader` would yield, plus
  the possible failure modes: missing file, open failure, mid-read failure);
* the interface-mode controller `enable_monitor_mode` becomes a function on
  an explicit interface-world state that also returns the list of
  mode-change commands it issues;
* the `main` control flow (initialization, scan loop, `finally` shutdown
  block) becomes a trace function emitting abstract events, parameterised
  by an environment describing which external operations fail.
-/

/-- One parsed access-point record, mirroring the dict built by
`parse_airodump_csv` (keys BSSID, SSID, Channel, Privacy, Cipher, Auth,
Power). -/
structure APRecord where
  BSSID : String
  SSID : String
  Channel : String
  Privacy : String
  Cipher : String
  Auth : String
  Power : String
deriving DecidableEq, Repr

/-- The ASCII whitespace characters Python's `str.strip()` removes by
default: space, tab, newline, carriage return, vertical tab, form feed. -/
def isPySpace (c : Char) : Bool :=
  c = ' ' || c = '\t' || c = '\n' || c = '\r' || c = '\x0b' || c = '\x0c'

/-- Python's `str.strip()`: drop leading and trailing whitespace. -/
def pyStrip (s : String) : String :=
  String.mk (((s.data.dropWhile isPySpace).reverse.dropWhile isPySpace).reverse)

/-- Field extraction for one accepted AP row, mirroring lines 162-177 of the
source: fixed column positions 0, 3, 5, 6, 7, 8, 13, every field stripped,
and `row[13].strip() or "Hidden"` for the SSID (Python's `or` substitutes
"Hidden" exactly when the stripped string is empty).  The function
is only ever applied to rows with more than 13 fields, so the `getD`
defaults are never consulted at call sites. -/
def mkRecord (row : List String) : APRecord :=
  { BSSID := pyStrip (row.getD 0 "")
  , SSID := if pyStrip (row.getD 13 "") = "" then "Hidden" else pyStrip (row.getD 13 "")
  , Channel := pyStrip (row.getD 3 "")
  , Privacy := pyStrip (row.getD 5 "")
  , Cipher := pyStrip (row.getD 6 "")
  , Auth := pyStrip (row.getD 7 "")
  , Power := pyStrip (row.getD 8 "") }

/-- The row loop of `parse_airodump_csv` (lines 147-177): skip blank rows,
a row whose first stripped field is "BSSID" marks the AP header (and is
itself skipped), a row whose first stripped field is "Station MAC" stops
processing (Python `break`, returning the records accumulated so far —
here the records already consed), and after the header every row with more
than 13 fields is accepted. -/
def parseRows : List (List String) → Bool → List APRecord
  | [], _ => []
  | row :: rest, apHeaderSeen =>
    if row.isEmpty then parseRows rest apHeaderSeen
    else if pyStrip (row.headD "") = "BSSID" then parseRows rest true
    else if pyStrip (row.headD "") = "Station MAC" then []
    else if apHeaderSeen ∧ 13 < row.length then mkRecord row :: parseRows rest apHeaderSeen
    else parseRows rest apHeaderSeen

/-- Abstract state of the snapshot file as one call to the parser observes
it.  `content rows readFail` means opening succeeds and iterating the
`csv.reader` yields exactly `rows` before either reaching end of file
(`readFail = false`) or raising an I/O error (`readFail = true`).  The
`except Exception: pass` in the source catches that error after the listed
rows were already processed, so the accumulated records are returned either
way; accordingly the parse result does not depend on the flag. -/
inductive FileState where
  | missing
  | openFail
  | content (rows : List (List String)) (readFail : Bool)
deriving DecidableEq, Repr

/-- Result of `os.path.exists` on the snapshot file. -/
def fileExists : FileState → Bool
  | .missing => false
  | _ => true

/-- Parse of an observed file state: a missing file and a failed open both
yield no records (lines 141-142 and the `except` at 178-179); otherwise the
rows read are processed by `parseRows` with the header flag initially
false. -/
def parseFs : FileState → List APRecord
  | .missing => []
  | .openFail => []
  | .content rows _ => parseRows rows false

/-- `parse_airodump_csv` itself.  The path argument models the Python
argument: `none` is `None`, `some ""` the empty string; line 141 tests
`not (ap_csv_path and os.path.exists(ap_csv_path))`, so a falsy path
returns `[]` before any filesystem access — which is why the result for
`none` and `some ""` does not depend on the file-state oracle `fs`. -/
def parse_airodump_csv (path : Option String) (fs : String → FileState) : List APRecord :=
  match path with
  | none => []
  | some p => if p = "" then [] else parseFs (fs p)

/-- Mode-change commands issued by the interface-mode controller
(lines 88-94 and 101-103 of the source). -/
inductive ModeCmd where
  | ipLinkDown
  | iwSetTypeMonitor
  | iwSetMonitorNone
  | ipLinkUp
deriving DecidableEq, Repr

/-- Operating mode of the wireless interface as `iw dev` reports it. -/
inductive IfMode where
  | managed
  | monitor
  | unknown
deriving DecidableEq, Repr

/-- State of the interface as seen by `enable_monitor_mode`: its current
mode, and whether the primary mode-change syntax
(`iw <iface> set type monitor`) exits with status 0 on this driver
(line 91 tests that return code to decide whether to also issue the
fallback `iw <iface> set monitor none`). -/
structure IfWorld where
  mode : IfMode
  primarySyntaxOk : Bool
deriving DecidableEq, Repr

/-- `enable_monitor_mode` (lines 78-96): if `iw dev` already reports the
interface in monitor mode, return at once having issued no command;
otherwise issue down / set-type-monitor (with the fallback syntax appended
when the primary returns nonzero) / up.  The mode-change command is
modelled as achieving its effect, so afterwards the interface reports
monitor mode.  Returns the new world together with the list of commands
issued. -/
def enable_monitor_mode (w : IfWorld) : IfWorld × List ModeCmd :=
  if w.mode = IfMode.monitor then (w, [])
  else
    ({ w with mode := IfMode.monitor },
      [ModeCmd.ipLinkDown]
        ++ (if w.primarySyntaxOk then [ModeCmd.iwSetTypeMonitor]
            else [ModeCmd.iwSetTypeMonitor, ModeCmd.iwSetMonitorNone])
        ++ [ModeCmd.ipLinkUp])

/-- Observable events of one run of `main` (lines 289-337): messages,
collaborator invocations and cleanup steps, in program order.
`pollParse` / `finalParse` record a call to `parse_airodump_csv` inside the
scan loop / the `finally` block together with its result; `liveView`
records a call to `print_live_table`; `genPdf` records that `generate_pdf`
was invoked (whether or not it then raises, in which case `pdfFailWarn`
records the caught-and-logged warning). -/
inductive Ev where
  | noIface
  | enableMonitor
  | startCapture
  | pollParse (nets : List APRecord)
  | liveView (nets : List APRecord)
  | stopCapture
  | finalParse (nets : List APRecord)
  | genPdf
  | pdfFailWarn
  | noNetworksNote
  | disableMonitor
  | done
deriving DecidableEq, Repr

/-- Environment a run of `main` executes against: whether
`get_wifi_interface` finds an interface, whether the `Popen` inside
`start_airodump` raises, the snapshot-file state observed at each
iteration of the scan loop until the single interrupt flips `running`
(a finite list, since the handler only sets the flag and the loop observes
it at the next iteration), the file state at the final parse in the
`finally` block, and whether `generate_pdf` raises. -/
structure Env where
  ifaceFound : Bool
  startFails : Bool
  polls : List FileState
  finalFs : FileState
  pdfFails : Bool
deriving DecidableEq, Repr

/-- One iteration of the scan loop (lines 314-319): only if
`os.path.exists(csv_path)` does the loop parse, and only a nonempty record
list is handed to `print_live_table`. -/
def pollEvents (fs : FileState) : List Ev :=
  if fileExists fs then
    Ev.pollParse (parseFs fs)
      :: (if parseFs fs ≠ [] then [Ev.liveView (parseFs fs)] else [])
  else []

/-- Events of the whole scan loop, iteration by iteration. -/
def loopEvents : List FileState → List Ev
  | [] => []
  | fs :: rest => pollEvents fs ++ loopEvents rest

/-- The `finally` block (lines 320-337): `stop_airodump()`; then, guarded
by an existence check and a catch-all that logs `generate_pdf` failures, a
final parse whose nonempty result is handed to `generate_pdf` and whose
empty result prints the informational note; then `disable_monitor_mode`
inside its own catch-all; then the terminal Done message. -/
def shutdownEvents (finalFs : FileState) (pdfFails : Bool) : List Ev :=
  Ev.stopCapture
    :: ((if fileExists finalFs then
          Ev.finalParse (parseFs finalFs)
            :: (if parseFs finalFs ≠ [] then
                  Ev.genPdf :: (if pdfFails then [Ev.pdfFailWarn] else [])
                else [Ev.noNetworksNote])
        else [])
        ++ [Ev.disableMonitor, Ev.done])

/-- Trace of one run of `main`, with a flag telling whether an uncaught
exception propagated out of `main`.  No interface: print-and-return
(lines 301-303).  `start_airodump` raising: the exception escapes —
`start_airodump` is called at line 307, before the `try` at line 313, so
neither the `finally` block nor any cleanup runs.  Otherwise: monitor mode
is enabled, capture started, the loop runs until the interrupt, and the
`finally` block performs the shutdown sequence. -/
def mainTrace (env : Env) : List Ev × Bool :=
  if env.ifaceFound = false then ([Ev.noIface], false)
  else if env.startFails then ([Ev.enableMonitor, Ev.startCapture], true)
  else ([Ev.enableMonitor, Ev.startCapture]
          ++ loopEvents env.polls
          ++ shutdownEvents env.finalFs env.pdfFails, false)

/-- A well-formed 14-field AP row as airodump-ng writes it. -/
def sampleRow1 : List String :=
  ["00:11:22:33:44:55", " 2024-01-01 10:00:00", " 2024-01-01 10:00:05", " 6",
   " 54", " WPA2", " CCMP", " PSK", " -40", " 10", " 0", " 0.0.0.0", " 5", " MyNet"]

/-- A well-formed AP row whose ESSID field is all whitespace (hidden
network). -/
def sampleRow2 : List String :=
  ["AA:BB:CC:DD:EE:FF", " 2024-01-01 10:00:00", " 2024-01-01 10:00:05", " 11",
   " 54", " OPN", " ", " ", " -70", " 3", " 0", " 0.0.0.0", " 0", "   "]

/-- A well-formed AP row carrying the same BSSID as `sampleRow1` but a
different ESSID, as a repeated-BSSID snapshot would contain. -/
def sampleDupRow : List String :=
  ["00:11:22:33:44:55", " 2024-01-01 10:00:01", " 2024-01-01 10:00:06", " 1",
   " 54", " WPA2", " CCMP", " PSK", " -52", " 7", " 0", " 0.0.0.0", " 8", " OtherNet"]

theorem parseRows_skip_row (rest : List (List String)) (b : Bool) (r : List String)
    (h1 : pyStrip (r.headD "") ≠ "BSSID") (h2 : pyStrip (r.headD "") ≠ "Station MAC")
    (h3 : b = false ∨ r.length ≤ 13) :
    parseRows (r :: rest) b = parseRows rest b := by
  have hnot : ¬ (b = true ∧ 13 < r.length) := by
    rcases h3 with h3 | h3
    · subst h3; simp
    · intro hc; omega
  cases hr : r.isEmpty
  · simp only [parseRows, hr, Bool.false_eq_true, if_false]
    rw [if_neg h1, if_neg h2, if_neg hnot]
  · simp only [parseRows, hr, if_true]

theorem parseRows_ignored_before_header (pre rows : List (List String))
    (h : ∀ r ∈ pre, pyStrip (r.headD "") ≠ "BSSID" ∧ pyStrip (r.headD "") ≠ "Station MAC") :
    parseRows (pre ++ rows) false = parseRows rows false := by
  induction pre with
  | nil => rfl
  | cons r pre ih =>
    have hr := h r (by simp)
    rw [List.cons_append, parseRows_skip_row _ _ r hr.1 hr.2 (Or.inl rfl)]
    exact ih (fun x hx => h x (by simp [hx]))

theorem parseRows_header (rows : List (List String)) (b : Bool) (hdr : List String)
    (h : pyStrip (hdr.headD "") = "BSSID") :
    parseRows (hdr :: rows) b = parseRows rows true := by
  have hne : hdr.isEmpty = false := by
    cases hdr
    · exact absurd h (by decide)
    · rfl
  simp only [parseRows, hne, Bool.false_eq_true, if_false]
  rw [if_pos h]

theorem parseRows_stop (rows : List (List String)) (st : List String)
    (h : pyStrip (st.headD "") = "Station MAC") :
    parseRows (st :: rows) true = [] := by
  have hne : st.isEmpty = false := by
    cases st
    · exact absurd h (by decide)
    · rfl
  have h1 : pyStrip (st.headD "") ≠ "BSSID" := by rw [h]; decide
  simp only [parseRows, hne, Bool.false_eq_true, if_false]
  rw [if_neg h1, if_pos h]

theorem parseRows_accepted (good rest : List (List String))
    (h : ∀ r ∈ good, 13 < r.length ∧ pyStrip (r.headD "") ≠ "BSSID"
          ∧ pyStrip (r.headD "") ≠ "Station MAC") :
    parseRows (good ++ rest) true = good.map mkRecord ++ parseRows rest true := by
  induction good with
  | nil => rfl
  | cons r g ih =>
    obtain ⟨hl, h1, h2⟩ := h r (by simp)
    have hne : r.isEmpty = false := by
      cases r
      · simp at hl
      · rfl
    rw [List.cons_append]
    simp only [parseRows, hne, Bool.false_eq_true, if_false]
    rw [if_neg h1, if_neg h2, if_pos (by simp [hl]), ih (fun x hx => h x (by simp [hx]))]
    simp

/-- C4: for a CSV made of ignored leading rows, the AP-table header, N
well-formed AP rows, one malformed (shorter than 14 fields) row, the
Station MAC header and M station rows, the parser returns exactly the N
records of the well-formed rows, in file order. -/
theorem parse_ap_table_boundary (pre good stations : List (List String))
    (hdr bad stHdr : List String)
    (hpre : ∀ r ∈ pre, pyStrip (r.headD "") ≠ "BSSID" ∧ pyStrip (r.headD "") ≠ "Station MAC")
    (hhdr : pyStrip (hdr.headD "") = "BSSID")
    (hgood : ∀ r ∈ good, 13 < r.length ∧ pyStrip (r.headD "") ≠ "BSSID"
              ∧ pyStrip (r.headD "") ≠ "Station MAC")
    (hbad : bad.length ≤ 13)
    (hst : pyStrip (stHdr.headD "") = "Station MAC") :
    parse_airodump_csv (some "scan-01.csv")
      (fun _ => FileState.content (pre ++ [hdr] ++ good ++ [bad] ++ [stHdr] ++ stations) false)
      = good.map mkRecord := by
  have hmain : parseRows (pre ++ [hdr] ++ good ++ [bad] ++ [stHdr] ++ stations) false
      = good.map mkRecord := by
    have e1 : pre ++ [hdr] ++ good ++ [bad] ++ [stHdr] ++ stations
        = pre ++ (hdr :: (good ++ (bad :: (stHdr :: stations)))) := by simp
    rw [e1, parseRows_ignored_before_header _ _ hpre, parseRows_header _ _ _ hhdr,
      parseRows_accepted _ _ hgood]
    have htail : parseRows (bad :: stHdr :: stations) true = [] := by
      by_cases hb1 : pyStrip (bad.headD "") = "BSSID"
      · rw [parseRows_header _ _ _ hb1, parseRows_stop _ _ hst]
      · by_cases hb2 : pyStrip (bad.headD "") = "Station MAC"
        · exact parseRows_stop _ _ hb2
        · rw [parseRows_skip_row _ _ _ hb1 hb2 (Or.inr hbad), parseRows_stop _ _ hst]
    rw [htail, List.append_nil]
  simpa [parse_airodump_csv, parseFs] using hmain

/-- Witness for C4 at a concrete file: one preamble row, the header, two
well-formed rows, one truncated row, the station header and two station
rows. -/
theorem parse_ap_table_boundary_wit :
    parse_airodump_csv (some "scan-01.csv")
      (fun _ => FileState.content
        ([["ignored preamble"]] ++ [["BSSID", " First time seen"]] ++ [sampleRow1, sampleRow2]
          ++ [["AA:AA:AA:AA:AA:AA", "truncated"]] ++ [["Station MAC", " First time seen"]]
          ++ [["11:22:33:44:55:66", " x"], ["22:33:44:55:66:77", " y"]]) false)
      = [mkRecord sampleRow1, mkRecord sampleRow2] :=
  parse_ap_table_boundary [["ignored preamble"]] [sampleRow1, sampleRow2]
    [["11:22:33:44:55:66", " x"], ["22:33:44:55:66:77", " y"]]
    ["BSSID", " First time seen"] ["AA:AA:AA:AA:AA:AA", "truncated"]
    ["Station MAC", " First time seen"]
    (by decide) (by decide) (by decide) (by decide) (by decide)

/-- C5: field extraction positions, trimming, and Hidden substitution. -/
theorem parse_field_extraction (row : List String)
    (h14 : 13 < row.length)
    (h1 : pyStrip (row.headD "") ≠ "BSSID")
    (h2 : pyStrip (row.headD "") ≠ "Station MAC") :
    parse_airodump_csv (some "scan-01.csv")
      (fun _ => FileState.content [["BSSID", " First time seen"], row] false)
      = [{ BSSID := pyStrip (row.getD 0 "")
         , SSID := if pyStrip (row.getD 13 "") = "" then "Hidden" else pyStrip (row.getD 13 "")
         , Channel := pyStrip (row.getD 3 "")
         , Privacy := pyStrip (row.getD 5 "")
         , Cipher := pyStrip (row.getD 6 "")
         , Auth := pyStrip (row.getD 7 "")
         , Power := pyStrip (row.getD 8 "") }] := by
  have hmain : parseRows [["BSSID", " First time seen"], row] false = [mkRecord row] := by
    rw [show [["BSSID", " First time seen"], row]
          = ["BSSID", " First time seen"] :: ([row] ++ []) from rfl,
      parseRows_header _ _ _ (by decide),
      parseRows_accepted [row] [] (by
        intro r hr
        rw [List.mem_singleton] at hr
        subst hr
        exact ⟨h14, h1, h2⟩)]
    rfl
  simpa [parse_airodump_csv, parseFs, mkRecord] using hmain

theorem parse_field_extraction_wit :
    parse_airodump_csv (some "scan-01.csv")
      (fun _ => FileState.content [["BSSID", " First time seen"], sampleRow2] false)
      = [{ BSSID := "AA:BB:CC:DD:EE:FF", SSID := "Hidden", Channel := "11"
         , Privacy := "OPN", Cipher := "", Auth := "", Power := "-70" }] := by
  rw [parse_field_extraction sampleRow2 (by decide) (by decide) (by decide)]
  decide

/-- C9 amended: repeated rows are kept, so BSSIDs repeat. -/
theorem parse_keeps_duplicate_bssids (row row2 : List String)
    (h14 : 13 < row.length) (h14b : 13 < row2.length)
    (h1 : pyStrip (row.headD "") ≠ "BSSID")
    (h2 : pyStrip (row.headD "") ≠ "Station MAC")
    (h1b : pyStrip (row2.headD "") ≠ "BSSID")
    (h2b : pyStrip (row2.headD "") ≠ "Station MAC") :
    parse_airodump_csv (some "scan-01.csv")
      (fun _ => FileState.content [["BSSID", " First time seen"], row, row2] false)
      = [mkRecord row, mkRecord row2] := by
  have hmain : parseRows [["BSSID", " First time seen"], row, row2] false
      = [mkRecord row, mkRecord row2] := by
    rw [show [["BSSID", " First time seen"], row, row2]
          = ["BSSID", " First time seen"] :: ([row, row2] ++ []) from rfl,
      parseRows_header _ _ _ (by decide),
      parseRows_accepted [row, row2] [] (by
        intro r hr
        rcases List.mem_cons.1 hr with hr | hr
        · subst hr; exact ⟨h14, h1, h2⟩
        · rw [List.mem_singleton] at hr; subst hr; exact ⟨h14b, h1b, h2b⟩)]
    rfl
  simpa [parse_airodump_csv, parseFs] using hmain

theorem parse_bssid_not_unique_cex :
    ¬ List.Nodup ((parse_airodump_csv (some "scan-01.csv")
        (fun _ => FileState.content [["BSSID", " First time seen"], sampleRow1, sampleDupRow] false)).map
          (fun r => r.BSSID)) := by decide

theorem parse_keeps_duplicate_bssids_wit :
    parse_airodump_csv (some "scan-01.csv")
      (fun _ => FileState.content [["BSSID", " First time seen"], sampleRow1, sampleDupRow] false)
      = [mkRecord sampleRow1, mkRecord sampleDupRow] :=
  parse_keeps_duplicate_bssids sampleRow1 sampleDupRow
    (by decide) (by decide) (by decide) (by decide) (by decide) (by decide)

/-- C3 counterexample: a mid-read failure after one valid row yields a
nonempty snapshot. -/
theorem parse_midread_failure_nonempty_cex :
    parse_airodump_csv (some "scan-01.csv")
      (fun _ => FileState.content [["BSSID", " First time seen"], sampleRow1] true) ≠ []
    ∧ parse_airodump_csv (some "scan-01.csv")
        (fun _ => FileState.content [["BSSID", " First time seen"], sampleRow1] true)
      = [mkRecord sampleRow1] := by constructor <;> decide

/-- C3 amended: never raises; missing/open-fail give empty; a mid-read
failure gives the same records as reading the same rows without failure. -/
theorem parse_error_degrades (p : String) (rows : List (List String)) :
    parse_airodump_csv (some p) (fun _ => FileState.missing) = []
    ∧ parse_airodump_csv (some p) (fun _ => FileState.openFail) = []
    ∧ parse_airodump_csv (some p) (fun _ => FileState.content rows true)
        = parse_airodump_csv (some p) (fun _ => FileState.content rows false) := by
  by_cases hp : p = "" <;> simp [parse_airodump_csv, hp, parseFs]

/-- C10: falsy path short-circuits, independent of the filesystem. -/
theorem parse_falsy_path_empty (fs fs2 : String → FileState) :
    parse_airodump_csv none fs = []
    ∧ parse_airodump_csv (some "") fs = []
    ∧ parse_airodump_csv none fs = parse_airodump_csv none fs2
    ∧ parse_airodump_csv (some "") fs = parse_airodump_csv (some "") fs2 :=
  ⟨rfl, rfl, rfl, rfl⟩

/-- C6: idempotence of enable_monitor_mode. -/
theorem enable_monitor_mode_idempotent (w : IfWorld) :
    enable_monitor_mode (enable_monitor_mode w).1 = ((enable_monitor_mode w).1, [])
    ∧ (w.mode = IfMode.monitor → enable_monitor_mode w = (w, [])) := by
  obtain ⟨m, p⟩ := w
  constructor
  · cases m <;> simp [enable_monitor_mode]
  · intro h
    simp only at h
    subst h
    simp [enable_monitor_mode]

theorem enable_monitor_mode_idempotent_wit :
    enable_monitor_mode ⟨IfMode.monitor, true⟩ = (⟨IfMode.monitor, true⟩, []) :=
  (enable_monitor_mode_idempotent ⟨IfMode.monitor, true⟩).2 rfl

theorem parseFs_of_not_exists (f : FileState) (h : fileExists f = false) : parseFs f = [] := by
  cases f
  · rfl
  · cases h
  · cases h

theorem loopEvents_mem (l : List FileState) (e : Ev) (h : e ∈ loopEvents l) :
    (∃ fs ∈ l, fileExists fs = true ∧ e = Ev.pollParse (parseFs fs))
    ∨ (∃ fs ∈ l, fileExists fs = true ∧ parseFs fs ≠ [] ∧ e = Ev.liveView (parseFs fs)) := by
  induction l with
  | nil => cases h
  | cons fs rest ih =>
    rw [loopEvents] at h
    rcases List.mem_append.1 h with h1 | h2
    · by_cases hex : fileExists fs = true
      · rw [pollEvents, if_pos hex] at h1
        by_cases hne : parseFs fs ≠ []
        · rw [if_pos hne] at h1
          rcases List.mem_cons.1 h1 with h1 | h1
          · exact Or.inl ⟨fs, by simp, hex, h1⟩
          · rw [List.mem_singleton] at h1
            exact Or.inr ⟨fs, by simp, hex, hne, h1⟩
        · rw [if_neg hne] at h1
          rcases List.mem_cons.1 h1 with h1 | h1
          · exact Or.inl ⟨fs, by simp, hex, h1⟩
          · cases h1
      · rw [pollEvents, if_neg hex] at h1
        cases h1
    · rcases ih h2 with ⟨g, hg, hx, he⟩ | ⟨g, hg, hx, hn, he⟩
      · exact Or.inl ⟨g, by simp [hg], hx, he⟩
      · exact Or.inr ⟨g, by simp [hg], hx, hn, he⟩

theorem loopEvents_pollParse_mem (l : List FileState) (fs : FileState)
    (hfs : fs ∈ l) (hex : fileExists fs = true) :
    Ev.pollParse (parseFs fs) ∈ loopEvents l := by
  induction l with
  | nil => cases hfs
  | cons g rest ih =>
    rw [loopEvents]
    rcases List.mem_cons.1 hfs with hfs | hfs
    · subst hfs
      refine List.mem_append.2 (Or.inl ?_)
      rw [pollEvents, if_pos hex]
      exact List.mem_cons_self _ _
    · exact List.mem_append.2 (Or.inr (ih hfs))

theorem loopEvents_liveView_mem (l : List FileState) (fs : FileState)
    (hfs : fs ∈ l) (hex : fileExists fs = true) (hne : parseFs fs ≠ []) :
    Ev.liveView (parseFs fs) ∈ loopEvents l := by
  induction l with
  | nil => cases hfs
  | cons g rest ih =>
    rw [loopEvents]
    rcases List.mem_cons.1 hfs with hfs | hfs
    · subst hfs
      refine List.mem_append.2 (Or.inl ?_)
      rw [pollEvents, if_pos hex, if_pos hne]
      simp
    · exact List.mem_append.2 (Or.inr (ih hfs))

theorem loopEvents_count_zero (l : List FileState) (e : Ev)
    (h : ∀ nets : List APRecord, e ≠ Ev.pollParse nets ∧ e ≠ Ev.liveView nets) :
    List.count e (loopEvents l) = 0 := by
  refine List.count_eq_zero.2 (fun hm => ?_)
  rcases loopEvents_mem l e hm with ⟨g, _, _, he⟩ | ⟨g, _, _, _, he⟩
  · exact (h (parseFs g)).1 he
  · exact (h (parseFs g)).2 he

theorem shutdownEvents_count_stop (f : FileState) (b : Bool) :
    List.count Ev.stopCapture (shutdownEvents f b) = 1 := by
  rw [shutdownEvents]
  by_cases hex : fileExists f = true <;> by_cases hne : parseFs f ≠ [] <;> cases b <;>
    simp [hex, hne, List.count_cons, List.count_append]

theorem shutdownEvents_count_disable (f : FileState) (b : Bool) :
    List.count Ev.disableMonitor (shutdownEvents f b) = 1 := by
  rw [shutdownEvents]
  by_cases hex : fileExists f = true <;> by_cases hne : parseFs f ≠ [] <;> cases b <;>
    simp [hex, hne, List.count_cons, List.count_append]

theorem shutdownEvents_done_mem (f : FileState) (b : Bool) :
    Ev.done ∈ shutdownEvents f b := by
  rw [shutdownEvents]
  by_cases hex : fileExists f = true <;> by_cases hne : parseFs f ≠ [] <;> cases b <;>
    simp [hex, hne]

theorem shutdownEvents_disable_mem (f : FileState) (b : Bool) :
    Ev.disableMonitor ∈ shutdownEvents f b := by
  rw [shutdownEvents]
  by_cases hex : fileExists f = true <;> by_cases hne : parseFs f ≠ [] <;> cases b <;>
    simp [hex, hne]

theorem shutdownEvents_genPdf_iff (f : FileState) (b : Bool) :
    Ev.genPdf ∈ shutdownEvents f b ↔ parseFs f ≠ [] := by
  rw [shutdownEvents]
  by_cases hex : fileExists f = true
  · by_cases hne : parseFs f ≠ [] <;> cases b <;> simp [hex, hne]
  · have : parseFs f = [] := parseFs_of_not_exists f (by simpa using hex)
    cases b <;> simp [hex, this]

theorem shutdownEvents_note_iff (f : FileState) (b : Bool) :
    Ev.noNetworksNote ∈ shutdownEvents f b ↔ (fileExists f = true ∧ parseFs f = []) := by
  rw [shutdownEvents]
  by_cases hex : fileExists f = true
  · by_cases hne : parseFs f = [] <;> cases b <;> simp [hex, hne]
  · cases b <;> simp [hex]

theorem shutdownEvents_no_liveView (f : FileState) (b : Bool) (nets : List APRecord) :
    Ev.liveView nets ∉ shutdownEvents f b := by
  rw [shutdownEvents]
  by_cases hex : fileExists f = true <;> by_cases hne : parseFs f ≠ [] <;> cases b <;>
    simp [hex, hne]

/-- C1 counterexample. -/
theorem restore_skipped_on_launch_failure_cex :
    Ev.disableMonitor ∉ (mainTrace ⟨true, true, [], FileState.missing, false⟩).1
    ∧ (mainTrace ⟨true, true, [], FileState.missing, false⟩).2 = true := by
  constructor <;> decide

/-- C1 amended. -/
theorem restore_skipped_on_launch_failure (env : Env)
    (h1 : env.ifaceFound = true) (h2 : env.startFails = true) :
    Ev.disableMonitor ∉ (mainTrace env).1
    ∧ Ev.stopCapture ∉ (mainTrace env).1
    ∧ (mainTrace env).2 = true := by
  rw [mainTrace, if_neg (by simp [h1]), if_pos h2]
  refine ⟨by simp, by simp, rfl⟩

theorem restore_skipped_on_launch_failure_wit :
    Ev.disableMonitor ∉ (mainTrace ⟨true, true, [FileState.missing], FileState.openFail, true⟩).1
    ∧ Ev.stopCapture ∉ (mainTrace ⟨true, true, [FileState.missing], FileState.openFail, true⟩).1
    ∧ (mainTrace ⟨true, true, [FileState.missing], FileState.openFail, true⟩).2 = true :=
  restore_skipped_on_launch_failure ⟨true, true, [FileState.missing], FileState.openFail, true⟩ rfl rfl

/-- C2: stop and restore exactly once, even if generate_pdf raises. -/
theorem shutdown_stop_and_restore_once (env : Env)
    (h1 : env.ifaceFound = true) (h2 : env.startFails = false) :
    List.count Ev.stopCapture (mainTrace env).1 = 1
    ∧ List.count Ev.disableMonitor (mainTrace env).1 = 1
    ∧ Ev.done ∈ (mainTrace env).1 := by
  rw [mainTrace, if_neg (by simp [h1]), if_neg (by simp [h2])]
  refine ⟨?_, ?_, ?_⟩
  · rw [List.count_append, List.count_append,
      loopEvents_count_zero _ _ (fun nets => ⟨by simp, by simp⟩),
      shutdownEvents_count_stop]
    decide
  · rw [List.count_append, List.count_append,
      loopEvents_count_zero _ _ (fun nets => ⟨by simp, by simp⟩),
      shutdownEvents_count_disable]
    decide
  · exact List.mem_append.2 (Or.inr (shutdownEvents_done_mem _ _))

theorem shutdown_stop_and_restore_once_wit :
    List.count Ev.stopCapture (mainTrace ⟨true, false, [FileState.missing],
        FileState.content [["BSSID", " First time seen"], sampleRow1] false, true⟩).1 = 1
    ∧ List.count Ev.disableMonitor (mainTrace ⟨true, false, [FileState.missing],
        FileState.content [["BSSID", " First time seen"], sampleRow1] false, true⟩).1 = 1
    ∧ Ev.done ∈ (mainTrace ⟨true, false, [FileState.missing],
        FileState.content [["BSSID", " First time seen"], sampleRow1] false, true⟩).1 :=
  shutdown_stop_and_restore_once ⟨true, false, [FileState.missing],
    FileState.content [["BSSID", " First time seen"], sampleRow1] false, true⟩ rfl rfl

/-- C7 counterexample: snapshot file missing at shutdown — zero records,
yet neither the PDF nor the informational note happens. -/
theorem final_note_skipped_when_file_missing_cex :
    parseFs FileState.missing = []
    ∧ Ev.genPdf ∉ (mainTrace ⟨true, false, [], FileState.missing, false⟩).1
    ∧ Ev.noNetworksNote ∉ (mainTrace ⟨true, false, [], FileState.missing, false⟩).1
    ∧ Ev.disableMonitor ∈ (mainTrace ⟨true, false, [], FileState.missing, false⟩).1
    ∧ Ev.done ∈ (mainTrace ⟨true, false, [], FileState.missing, false⟩).1 := by
  refine ⟨rfl, ?_, ?_, ?_, ?_⟩ <;> decide

/-- C7 amended. -/
theorem pdf_iff_final_records (env : Env)
    (h1 : env.ifaceFound = true) (h2 : env.startFails = false) :
    (Ev.genPdf ∈ (mainTrace env).1 ↔ parseFs env.finalFs ≠ [])
    ∧ (Ev.noNetworksNote ∈ (mainTrace env).1
        ↔ (fileExists env.finalFs = true ∧ parseFs env.finalFs = []))
    ∧ Ev.disableMonitor ∈ (mainTrace env).1
    ∧ Ev.done ∈ (mainTrace env).1 := by
  rw [mainTrace, if_neg (by simp [h1]), if_neg (by simp [h2])]
  have hpoll : ∀ e : Ev, e ∈ loopEvents env.polls →
      (∃ nets, e = Ev.pollParse nets) ∨ (∃ nets, e = Ev.liveView nets) := by
    intro e he
    rcases loopEvents_mem _ _ he with ⟨g, _, _, hg⟩ | ⟨g, _, _, _, hg⟩
    · exact Or.inl ⟨parseFs g, hg⟩
    · exact Or.inr ⟨parseFs g, hg⟩
  refine ⟨?_, ?_, ?_, ?_⟩
  · constructor
    · intro hm
      rcases List.mem_append.1 hm with hm | hm
      · rcases List.mem_append.1 hm with hm | hm
        · simp at hm
        · rcases hpoll _ hm with ⟨n, hn⟩ | ⟨n, hn⟩ <;> cases hn
      · exact (shutdownEvents_genPdf_iff _ _).1 hm
    · intro hm
      exact List.mem_append.2 (Or.inr ((shutdownEvents_genPdf_iff _ _).2 hm))
  · constructor
    · intro hm
      rcases List.mem_append.1 hm with hm | hm
      · rcases List.mem_append.1 hm with hm | hm
        · simp at hm
        · rcases hpoll _ hm with ⟨n, hn⟩ | ⟨n, hn⟩ <;> cases hn
      · exact (shutdownEvents_note_iff _ _).1 hm
    · intro hm
      exact List.mem_append.2 (Or.inr ((shutdownEvents_note_iff _ _).2 hm))
  · exact List.mem_append.2 (Or.inr (shutdownEvents_disable_mem _ _))
  · exact List.mem_append.2 (Or.inr (shutdownEvents_done_mem _ _))

theorem pdf_iff_final_records_wit :
    Ev.genPdf ∉ (mainTrace ⟨true, false, [], FileState.openFail, false⟩).1
    ∧ Ev.noNetworksNote ∈ (mainTrace ⟨true, false, [], FileState.openFail, false⟩).1 := by
  have h := pdf_iff_final_records ⟨true, false, [], FileState.openFail, false⟩ rfl rfl
  exact ⟨fun hm => (h.1.1 hm) rfl, h.2.1.2 ⟨rfl, rfl⟩⟩

/-- C8 counterexample: an iteration whose parse result is empty produces no
live-view call at all. -/
theorem liveview_skipped_on_empty_cex :
    (mainTrace ⟨true, false, [FileState.content [] false], FileState.missing, false⟩).1
      = [Ev.enableMonitor, Ev.startCapture, Ev.pollParse [],
         Ev.stopCapture, Ev.disableMonitor, Ev.done]
    ∧ Ev.liveView []
        ∉ (mainTrace ⟨true, false, [FileState.content [] false], FileState.missing, false⟩).1 := by
  constructor <;> decide

/-- C8 amended. -/
theorem liveview_only_nonempty (env : Env)
    (h1 : env.ifaceFound = true) (h2 : env.startFails = false) :
    (∀ nets, Ev.liveView nets ∈ (mainTrace env).1 →
        nets ≠ [] ∧ ∃ fs ∈ env.polls, fileExists fs = true ∧ parseFs fs = nets)
    ∧ (∀ nets, Ev.pollParse nets ∈ (mainTrace env).1 →
        ∃ fs ∈ env.polls, fileExists fs = true ∧ parseFs fs = nets)
    ∧ (∀ fs ∈ env.polls, fileExists fs = true →
        Ev.pollParse (parseFs fs) ∈ (mainTrace env).1
        ∧ (parseFs fs ≠ [] → Ev.liveView (parseFs fs) ∈ (mainTrace env).1)) := by
  rw [mainTrace, if_neg (by simp [h1]), if_neg (by simp [h2])]
  refine ⟨?_, ?_, ?_⟩
  · intro nets hm
    rcases List.mem_append.1 hm with hm | hm
    · rcases List.mem_append.1 hm with hm | hm
      · simp at hm
      · rcases loopEvents_mem _ _ hm with ⟨g, hg, hx, he⟩ | ⟨g, hg, hx, hn, he⟩
        · cases he
        · cases he
          exact ⟨hn, g, hg, hx, rfl⟩
    · exact absurd hm (shutdownEvents_no_liveView _ _ _)
  · intro nets hm
    rcases List.mem_append.1 hm with hm | hm
    · rcases List.mem_append.1 hm with hm | hm
      · simp at hm
      · rcases loopEvents_mem _ _ hm with ⟨g, hg, hx, he⟩ | ⟨g, hg, hx, hn, he⟩
        · cases he
          exact ⟨g, hg, hx, rfl⟩
        · cases he
    · rw [shutdownEvents] at hm
      by_cases hex : fileExists env.finalFs = true
      · by_cases hne : parseFs env.finalFs ≠ [] <;> cases env.pdfFails <;>
          simp [hex, hne] at hm
      · cases env.pdfFails <;> simp [hex] at hm
  · intro fs hfs hex
    constructor
    · exact List.mem_append.2 (Or.inl (List.mem_append.2
        (Or.inr (loopEvents_pollParse_mem _ _ hfs hex))))
    · intro hne
      exact List.mem_append.2 (Or.inl (List.mem_append.2
        (Or.inr (loopEvents_liveView_mem _ _ hfs hex hne))))

theorem liveview_only_nonempty_wit :
    Ev.liveView (parseFs (FileState.content [["BSSID", " First time seen"], sampleRow1] false))
      ∈ (mainTrace ⟨true, false, [FileState.content [["BSSID", " First time seen"], sampleRow1] false],
          FileState.missing, false⟩).1 := by
  have h := liveview_only_nonempty ⟨true, false,
    [FileState.content [["BSSID", " First time seen"], sampleRow1] false],
    FileState.missing, false⟩ rfl rfl
  exact (h.2.2 (FileState.content [["BSSID", " First time seen"], sampleRow1] false)
    (by simp) rfl).2 (by decide)
